import Mathlib

/-!
Shallow embedding of `httperrors.go` from the `errors` package.

The file under verification declares `HTTPErr`, its methods, the response
serialization (`errResponse` / `svcError` marshalled with
`json.MarshalIndent`), the boundary responder `HTTPError`, the writer helper
`sendError`, and the variadic builder `RE`.  The package types it references
that are declared in other files of the repository (`Kind`, `Code`,
`Parameter`, `Error`, `Str`, `MissingField`, `Errorf`) are modelled from the
specification; each such definition carries a doc comment saying so.

Go state is made explicit: `*Error` pointers are indices into a `Heap`,
Go `nil` errors are `Option.none`, and a Go panic is a dedicated
constructor of the result type of the function that would panic.
-/

namespace GilcrestErrors

/-- Modelled from the spec: the `Kind` enumeration is declared outside the
source file under verification.  The spec describes it as a closed set of
semantic categories (for example NotFound, Invalid, Permission, Internal,
Unanticipated) with a total string projection; the zero value is the first
constructor. -/
inductive Kind where
  | other
  | notFound
  | invalid
  | permission
  | internal
  | unanticipated
  deriving DecidableEq

/-- Modelled from the spec: `Kind.String()`.  The spec requires a non-empty
stable string for every enumerated value, with the zero/unrecognized value
mapped to the sentinel string of the Unanticipated category. -/
def kindString : Kind → String
  | Kind.other => "Unanticipated"
  | Kind.notFound => "NotFound"
  | Kind.invalid => "Invalid"
  | Kind.permission => "Permission"
  | Kind.internal => "Internal"
  | Kind.unanticipated => "Unanticipated"

/-- Modelled from the spec: the package's `Error` struct (the classified-error
value that `RE` deep-copies in its `*Error` case, source lines 164-167) is
declared outside the source file under verification.  The spec describes the
classified composite entity as status/kind/code/param plus a wrapped cause;
the cause is kept here as its display message `msg`, which is also what the
modelled `Error() string` method of the struct returns. -/
structure ErrorVal where
  statusCode : Int
  kind : Kind
  code : String
  param : String
  msg : String
  deriving DecidableEq

/-- A heap of allocated `Error` values: a Go `*Error` pointer is an index
below `next`.  `mem` is total so that every lookup is defined; only indices
below `next` correspond to allocated pointers. -/
structure Heap where
  mem : Nat → ErrorVal
  next : Nat

/-- Pointer dereference `*p`. -/
def Heap.get (h : Heap) (a : Nat) : ErrorVal := h.mem a

/-- Assignment through a pointer, `*p = v`. -/
def Heap.set (h : Heap) (a : Nat) (v : ErrorVal) : Heap :=
  ⟨fun i => if i = a then v else h.mem i, h.next⟩

/-- Allocation of a fresh cell holding `v` (Go `copy := *arg; &copy`):
returns the new heap and the fresh address. -/
def Heap.alloc (h : Heap) (v : ErrorVal) : Heap × Nat :=
  (⟨fun i => if i = h.next then v else h.mem i, h.next + 1⟩, h.next)

/-- A Go `error` interface value, restricted to the error shapes reachable in
this package.  `httpErr` is a (pointer to a) `HTTPErr` value as declared in
the source (fields in source order).  The remaining constructors embed error
types declared outside the source file, modelled from the spec: `str` is a
plain string error (`errors.Str` / `errors.New`), `missingField` is the
spec's `MissingField` helper whose message renders as "<field> is required",
`errorf` is the formatted error returned by `Errorf`, and `errPtr` is a
`*Error` pointer into a `Heap`. -/
inductive GoErr where
  | str (s : String)
  | missingField (field : String)
  | errorf (msg : String)
  | errPtr (addr : Nat)
  | httpErr (HTTPStatusCode : Int) (K : Kind) (Param : String) (Code : String) (Err : Option GoErr)

mutual

/-- Decidable equality for `GoErr` (hand-written because the inductive nests
through `Option`). -/
def GoErr.decEq : (a b : GoErr) → Decidable (a = b)
  | GoErr.str x, GoErr.str y =>
    if h : x = y then isTrue (by rw [h]) else isFalse (fun hh => by injection hh; contradiction)
  | GoErr.missingField x, GoErr.missingField y =>
    if h : x = y then isTrue (by rw [h]) else isFalse (fun hh => by injection hh; contradiction)
  | GoErr.errorf x, GoErr.errorf y =>
    if h : x = y then isTrue (by rw [h]) else isFalse (fun hh => by injection hh; contradiction)
  | GoErr.errPtr x, GoErr.errPtr y =>
    if h : x = y then isTrue (by rw [h]) else isFalse (fun hh => by injection hh; contradiction)
  | GoErr.httpErr s1 k1 p1 c1 e1, GoErr.httpErr s2 k2 p2 c2 e2 =>
    if h1 : s1 = s2 then
      if h2 : k1 = k2 then
        if h3 : p1 = p2 then
          if h4 : c1 = c2 then
            match GoErr.decEqOpt e1 e2 with
            | isTrue h5 => isTrue (by rw [h1, h2, h3, h4, h5])
            | isFalse h5 => isFalse (fun hh => by injection hh; contradiction)
          else isFalse (fun hh => by injection hh; contradiction)
        else isFalse (fun hh => by injection hh; contradiction)
      else isFalse (fun hh => by injection hh; contradiction)
    else isFalse (fun hh => by injection hh; contradiction)
  | GoErr.str _, GoErr.missingField _ => isFalse (fun h => GoErr.noConfusion h)
  | GoErr.str _, GoErr.errorf _ => isFalse (fun h => GoErr.noConfusion h)
  | GoErr.str _, GoErr.errPtr _ => isFalse (fun h => GoErr.noConfusion h)
  | GoErr.str _, GoErr.httpErr _ _ _ _ _ => isFalse (fun h => GoErr.noConfusion h)
  | GoErr.missingField _, GoErr.str _ => isFalse (fun h => GoErr.noConfusion h)
  | GoErr.missingField _, GoErr.errorf _ => isFalse (fun h => GoErr.noConfusion h)
  | GoErr.missingField _, GoErr.errPtr _ => isFalse (fun h => GoErr.noConfusion h)
  | GoErr.missingField _, GoErr.httpErr _ _ _ _ _ => isFalse (fun h => GoErr.noConfusion h)
  | GoErr.errorf _, GoErr.str _ => isFalse (fun h => GoErr.noConfusion h)
  | GoErr.errorf _, GoErr.missingField _ => isFalse (fun h => GoErr.noConfusion h)
  | GoErr.errorf _, GoErr.errPtr _ => isFalse (fun h => GoErr.noConfusion h)
  | GoErr.errorf _, GoErr.httpErr _ _ _ _ _ => isFalse (fun h => GoErr.noConfusion h)
  | GoErr.errPtr _, GoErr.str _ => isFalse (fun h => GoErr.noConfusion h)
  | GoErr.errPtr _, GoErr.missingField _ => isFalse (fun h => GoErr.noConfusion h)
  | GoErr.errPtr _, GoErr.errorf _ => isFalse (fun h => GoErr.noConfusion h)
  | GoErr.errPtr _, GoErr.httpErr _ _ _ _ _ => isFalse (fun h => GoErr.noConfusion h)
  | GoErr.httpErr _ _ _ _ _, GoErr.str _ => isFalse (fun h => GoErr.noConfusion h)
  | GoErr.httpErr _ _ _ _ _, GoErr.missingField _ => isFalse (fun h => GoErr.noConfusion h)
  | GoErr.httpErr _ _ _ _ _, GoErr.errorf _ => isFalse (fun h => GoErr.noConfusion h)
  | GoErr.httpErr _ _ _ _ _, GoErr.errPtr _ => isFalse (fun h => GoErr.noConfusion h)

/-- Decidable equality for an optional `GoErr` (the nil-able cause field). -/
def GoErr.decEqOpt : (a b : Option GoErr) → Decidable (a = b)
  | none, none => isTrue rfl
  | some x, some y =>
    match GoErr.decEq x y with
    | isTrue h => isTrue (by rw [h])
    | isFalse h => isFalse (fun hh => by injection hh; contradiction)
  | none, some _ => isFalse (fun h => Option.noConfusion h)
  | some _, none => isFalse (fun h => Option.noConfusion h)

end

instance : DecidableEq GoErr := GoErr.decEq

instance : DecidableEq (Option GoErr) := GoErr.decEqOpt

/-- `HTTPErr` from the source (lines 22-29): an error with an associated HTTP
status code.  `Err = none` models a nil `error` field.  Field order follows
the source. -/
structure HTTPErr where
  HTTPStatusCode : Int
  Kind : Kind
  Param : String
  Code : String
  Err : Option GoErr
  deriving DecidableEq

/-- The Go zero value `HTTPErr{}` (source line 151 allocates `&HTTPErr{}`). -/
def HTTPErrEmpty : HTTPErr := ⟨0, Kind.other, "", "", none⟩

/-- The `Error() string` method of the error shapes.  For `HTTPErr` the
source (lines 32-34) returns `hse.Err.Error()` with no nil check, so a nil
`Err` dereferences a nil interface; the `none` result models that panic.
For the shapes declared outside the source file the message is modelled from
the spec (`Str`: the string itself; `MissingField(f)`: "<f> is required";
`Errorf`: its formatted message; `*Error`: the stored `msg`). -/
def goErrMessage (heap : Heap) : GoErr → Option String
  | GoErr.str s => some s
  | GoErr.missingField f => some (f ++ " is required")
  | GoErr.errorf m => some m
  | GoErr.errPtr a => some (heap.get a).msg
  | GoErr.httpErr _ _ _ _ none => none
  | GoErr.httpErr _ _ _ _ (some c) => goErrMessage heap c

/-- `hse.Err.Error()` as invoked by `HTTPErr.Error()` (source line 33): `none`
models the nil-interface panic when `Err` is nil. -/
def errErrorMethod (heap : Heap) : Option GoErr → Option String
  | none => none
  | some ge => goErrMessage heap ge

/-- Whether the dynamic type of the error satisfies the unexported `hError`
interface of the source (lines 14-20): only `HTTPErr` (and `*HTTPErr`)
declares `Status`/`ErrKind`/`ErrParam`/`ErrCode`. -/
def isClassified : GoErr → Bool
  | GoErr.httpErr _ _ _ _ _ => true
  | _ => false

/-- The `svcError` payload of the source (lines 65-70): the four string
fields of the serialized envelope, in source order.  All four carry the
`omitempty` JSON option. -/
structure svcError where
  Kind : String
  Code : String
  Param : String
  Message : String
  deriving DecidableEq

/-- One hexadecimal digit, for the `\u00XX` escapes of the JSON encoder. -/
def hexDigit (n : Nat) : String :=
  if n < 10 then toString n
  else if n = 10 then "a"
  else if n = 11 then "b"
  else if n = 12 then "c"
  else if n = 13 then "d"
  else if n = 14 then "e"
  else "f"

/-- Escaping of one character by Go's `encoding/json` string encoder (with
its default HTML escaping of angle brackets and ampersand). -/
def jsonEscapeChar (c : Char) : String :=
  if c = '"' then "\\\""
  else if c = '\\' then "\\\\"
  else if c = '\n' then "\\n"
  else if c = '\r' then "\\r"
  else if c = '\t' then "\\t"
  else if c = '<' then "\\u003c"
  else if c = '>' then "\\u003e"
  else if c = '&' then "\\u0026"
  else if c.toNat < 32 then "\\u00" ++ hexDigit (c.toNat / 16) ++ hexDigit (c.toNat % 16)
  else String.singleton c

/-- A JSON string literal as produced by `encoding/json`. -/
def jsonString (s : String) : String :=
  "\"" ++ String.join (s.toList.map jsonEscapeChar) ++ "\""

/-- The fields of a `svcError` that survive `omitempty` serialization, as
(key, value) pairs in struct order; a field is emitted exactly when its
string value is non-empty. -/
def svcFields (e : svcError) : List (String × String) :=
  (if e.Kind = "" then [] else [("kind", e.Kind)])
    ++ (if e.Code = "" then [] else [("code", e.Code)])
    ++ (if e.Param = "" then [] else [("param", e.Param)])
    ++ (if e.Message = "" then [] else [("message", e.Message)])

/-- `json.MarshalIndent(errResponse{Error: e}, "", "    ")` from the source
(lines 102 and 121): the envelope `\x7b"error": ...\x7d` pretty-printed with
four-space indentation, inner fields filtered by `omitempty`. -/
def marshalIndentErrResponse (e : svcError) : String :=
  let fs := svcFields e
  let inner :=
    if fs.isEmpty then "\x7b\x7d"
    else
      "\x7b\n"
        ++ String.intercalate ",\n"
          (fs.map (fun kv => "        " ++ jsonString kv.1 ++ ": " ++ jsonString kv.2))
        ++ "\n    \x7d"
  "\x7b\n    " ++ jsonString "error" ++ ": " ++ inner ++ "\n\x7d"

/-- The response as observed by the client: the two headers set by
`sendError`, the status passed to `WriteHeader`, and the written body. -/
structure HTTPResponse where
  contentType : String
  xContentTypeOptions : String
  status : Int
  body : String
  deriving DecidableEq

/-- `sendError` from the source (lines 133-138): sets the two headers,
writes the status code verbatim, and writes the message followed by the
newline appended by `fmt.Fprintln`. -/
def sendError (error : String) (statusCode : Int) : HTTPResponse :=
  ⟨"application/json", "nosniff", statusCode, error ++ "\n"⟩

/-- The Go runtime message for calling a method on a nil interface. -/
def nilDerefMsg : String :=
  "runtime error: invalid memory address or nil pointer dereference"

/-- Outcome of a call to the responder `HTTPError`: nothing written (nil
error), a runtime panic (nil cause dereferenced while formatting the
message), or a written response together with the log lines emitted. -/
inductive RespondResult where
  | noWrite
  | panicked (msg : String)
  | wrote (resp : HTTPResponse) (logs : List String)
  deriving DecidableEq

/-- `HTTPError` from the source (lines 78-126).  A nil error writes nothing.
A classified error (dynamic type satisfying `hError`) logs
"HTTP <status> - <message>" and sends the envelope built from its
kind/code/param/message with its own status code.  Any other error logs the
original text and sends the fixed Unanticipated envelope with status 500. -/
def HTTPError (heap : Heap) (err : Option GoErr) : RespondResult :=
  match err with
  | none => RespondResult.noWrite
  | some e =>
    match e with
    | GoErr.httpErr s k p c cause =>
      match errErrorMethod heap cause with
      | none => RespondResult.panicked nilDerefMsg
      | some msg =>
        RespondResult.wrote
          (sendError (marshalIndentErrResponse ⟨kindString k, c, p, msg⟩) s)
          ["HTTP " ++ toString s ++ " - " ++ msg]
    | e' =>
      match goErrMessage heap e' with
      | none => RespondResult.panicked nilDerefMsg
      | some m =>
        RespondResult.wrote
          (sendError
            (marshalIndentErrResponse
              ⟨kindString Kind.unanticipated, "Unanticipated", "",
                "Unexpected error - contact support"⟩)
            500)
          ["Unknown Error - HTTP 500 - " ++ m]

/-- The `svcError` built by the default (unclassified) branch of `HTTPError`
(source lines 110-116). -/
def unclassifiedSvc : svcError :=
  ⟨kindString Kind.unanticipated, "Unanticipated", "", "Unexpected error - contact support"⟩

/-- The marshalled body of the default (unclassified) branch. -/
def unclassifiedBody : String := marshalIndentErrResponse unclassifiedSvc

/-- The status code of a written response, if one was written. -/
def writtenStatus : RespondResult → Option Int
  | RespondResult.wrote r _ => some r.status
  | _ => none

/-- The body of a written response, if one was written. -/
def writtenBody : RespondResult → Option String
  | RespondResult.wrote r _ => some r.body
  | _ => none

/-- One argument of the variadic builder `RE`, tagged by the runtime type the
source's type switch (lines 153-174) inspects: `int`, `Kind`, `string`,
`Code`, `Parameter`, `*Error` (a heap pointer), any other `error`, and
`other` for every unrecognized dynamic type, carrying that argument's type
name (Go `%T`) and value rendering (Go `%v`). -/
inductive Arg where
  | int (n : Int)
  | kind (k : Kind)
  | str (s : String)
  | code (c : String)
  | param (p : String)
  | errStar (a : Nat)
  | err (e : GoErr)
  | other (typeName : String) (valueStr : String)
  deriving DecidableEq

/-- Go `%v` rendering of one argument, used by the log line of the bad-call
branch.  `fmt` calls `String()` on a `Kind` and `Error()` on error values,
and recovers a panic raised by such a method, printing a PANIC marker. -/
def vString (heap : Heap) : Arg → String
  | Arg.int n => toString n
  | Arg.kind k => kindString k
  | Arg.str s => s
  | Arg.code c => c
  | Arg.param p => p
  | Arg.errStar a => (heap.get a).msg
  | Arg.err ge =>
    match goErrMessage heap ge with
    | some m => m
    | none => "%!v(PANIC=Error method: runtime error: invalid memory address or nil pointer dereference)"
  | Arg.other _ v => v

/-- Go `%v` rendering of the whole argument slice. -/
def argsString (heap : Heap) (args : List Arg) : String :=
  "[" ++ String.intercalate " " (args.map (vString heap)) ++ "]"

/-- Result of a call to `RE`: a panic (zero arguments), the construction
error returned by the bad-call branch, or the built `*HTTPErr`. -/
inductive REResult where
  | panicked (msg : String)
  | constructionError (msg : String)
  | ok (e : HTTPErr)
  deriving DecidableEq

/-- The `for _, arg := range args` loop of `RE` (source lines 152-175),
threading the value under construction and the heap; `args0` is the original
argument slice, referenced by the log line of the bad-call branch.  In the
`*Error` case the pointee is copied into a fresh cell and the fresh pointer
is stored (source: `copy := *arg; e.Err = &copy`).  The bad-call branch
returns `Errorf("unknown type %T, value %v in error call", arg, arg)` after
logging the caller site. -/
def reLoop (file : String) (line : Nat) (args0 : List Arg) :
    List Arg → HTTPErr → Heap → REResult × Heap × List String
  | [], e, heap => (REResult.ok e, heap, [])
  | Arg.int n :: rest, e, heap =>
    reLoop file line args0 rest ⟨n, e.Kind, e.Param, e.Code, e.Err⟩ heap
  | Arg.kind k :: rest, e, heap =>
    reLoop file line args0 rest ⟨e.HTTPStatusCode, k, e.Param, e.Code, e.Err⟩ heap
  | Arg.str s :: rest, e, heap =>
    reLoop file line args0 rest ⟨e.HTTPStatusCode, e.Kind, e.Param, s, e.Err⟩ heap
  | Arg.code c :: rest, e, heap =>
    reLoop file line args0 rest ⟨e.HTTPStatusCode, e.Kind, e.Param, c, e.Err⟩ heap
  | Arg.param p :: rest, e, heap =>
    reLoop file line args0 rest ⟨e.HTTPStatusCode, e.Kind, p, e.Code, e.Err⟩ heap
  | Arg.errStar a :: rest, e, heap =>
    reLoop file line args0 rest
      ⟨e.HTTPStatusCode, e.Kind, e.Param, e.Code,
        some (GoErr.errPtr (heap.alloc (heap.get a)).2)⟩
      (heap.alloc (heap.get a)).1
  | Arg.err ge :: rest, e, heap =>
    reLoop file line args0 rest ⟨e.HTTPStatusCode, e.Kind, e.Param, e.Code, some ge⟩ heap
  | Arg.other t v :: _rest, _, heap =>
    (REResult.constructionError ("unknown type " ++ t ++ ", value " ++ v ++ " in error call"),
     heap,
     ["errors.E: bad call from " ++ file ++ ":" ++ toString line ++ ": " ++ argsString heap args0])

/-- `RE` from the source (lines 147-178).  `file` and `line` are the caller
site reported by `runtime.Caller(1)`.  Zero arguments panic; otherwise the
loop builds the value starting from `&HTTPErr{}`.  The third component of the
result collects the log lines emitted during the call. -/
def RE (file : String) (line : Nat) (heap : Heap) :
    List Arg → REResult × Heap × List String
  | [] => (REResult.panicked "call to errors.RE with no arguments", heap, [])
  | a :: rest => reLoop file line (a :: rest) (a :: rest) HTTPErrEmpty heap

/-- Arguments whose loop step neither touches the heap nor logs nor returns
early: the five recognized pure field-setting cases plus a verbatim `error`
argument. -/
def isPure : Arg → Bool
  | Arg.int _ => true
  | Arg.kind _ => true
  | Arg.str _ => true
  | Arg.code _ => true
  | Arg.param _ => true
  | Arg.err _ => true
  | _ => false

/-- Whether an argument is of unrecognized dynamic type (the bad-call
branch). -/
def isOther : Arg → Bool
  | Arg.other _ _ => true
  | _ => false

/-- Whether an argument is error-typed (sets the `Err` field): a `*Error` or
any other `error`. -/
def isErrArg : Arg → Bool
  | Arg.errStar _ => true
  | Arg.err _ => true
  | _ => false

/-- The field update performed by one pure loop step. -/
def applyPure (e : HTTPErr) : Arg → HTTPErr
  | Arg.int n => ⟨n, e.Kind, e.Param, e.Code, e.Err⟩
  | Arg.kind k => ⟨e.HTTPStatusCode, k, e.Param, e.Code, e.Err⟩
  | Arg.str s => ⟨e.HTTPStatusCode, e.Kind, e.Param, s, e.Err⟩
  | Arg.code c => ⟨e.HTTPStatusCode, e.Kind, e.Param, c, e.Err⟩
  | Arg.param p => ⟨e.HTTPStatusCode, e.Kind, p, e.Code, e.Err⟩
  | Arg.err ge => ⟨e.HTTPStatusCode, e.Kind, e.Param, e.Code, some ge⟩
  | _ => e

/-- A default `Error` value for building concrete heaps. -/
def defaultErrorVal : ErrorVal := ⟨0, Kind.other, "", "", ""⟩

/-- The empty heap: no allocated `*Error` pointers. -/
def emptyHeap : Heap := ⟨fun _ => defaultErrorVal, 0⟩

/-- A sample allocated `Error` value and a one-cell heap holding it. -/
def sampleErrorVal : ErrorVal := ⟨500, Kind.internal, "db_down", "q", "boom"⟩

/-- A heap with exactly one allocated cell, at address 0. -/
def heapOne : Heap := ⟨fun _ => sampleErrorVal, 1⟩

/-- A mutated `Error` value, used to overwrite the copy embedded by `RE`. -/
def mutatedVal : ErrorVal := ⟨404, Kind.invalid, "changed", "p", "changed"⟩

/-- The canonical argument list of the permutation test:
`Build(500, KindInvalid, Code("bad_email"), Parameter("email"), errors.New("x"))`. -/
def canonArgs : List Arg :=
  [Arg.int 500, Arg.kind Kind.invalid, Arg.code "bad_email", Arg.param "email",
   Arg.err (GoErr.str "x")]

/-- The canonical argument list in reversed order, one of its 120
permutations. -/
def canonArgsRev : List Arg := canonArgs.reverse

/-- Helper: on a list of pure arguments the builder loop is a left fold of
the field updates, touching neither the heap nor the log. -/
theorem reLoop_pure (f : String) (l : Nat) (args0 : List Arg) :
    ∀ (args : List Arg) (e : HTTPErr) (h : Heap), (∀ a ∈ args, isPure a = true) →
      reLoop f l args0 args e h = (REResult.ok (List.foldl applyPure e args), h, []) := by
  intro args
  induction args with
  | nil => intro e h _; rfl
  | cons a rest ih =>
    intro e h hall
    have ha : isPure a = true := hall a (List.mem_cons_self a rest)
    have hr : ∀ x ∈ rest, isPure x = true := fun x hx => hall x (List.mem_cons_of_mem a hx)
    cases a with
    | int n => simp only [reLoop, List.foldl, applyPure]; exact ih _ h hr
    | kind k => simp only [reLoop, List.foldl, applyPure]; exact ih _ h hr
    | str s => simp only [reLoop, List.foldl, applyPure]; exact ih _ h hr
    | code c => simp only [reLoop, List.foldl, applyPure]; exact ih _ h hr
    | param p => simp only [reLoop, List.foldl, applyPure]; exact ih _ h hr
    | err ge => simp only [reLoop, List.foldl, applyPure]; exact ih _ h hr
    | errStar a2 => simp [isPure] at ha
    | other t v => simp [isPure] at ha

/-- Helper: when the first argument of unrecognized type sits after a prefix
of recognized arguments, the loop returns the construction error and the one
log line, and neither depends on what follows that argument. -/
theorem reLoop_first_other (f : String) (l : Nat) (t v : String) :
    ∀ (pre : List Arg), (∀ a ∈ pre, isOther a = false) →
      ∀ (e : HTTPErr) (h : Heap),
      ∃ h2 : Heap, ∀ (rest args0 : List Arg),
        reLoop f l args0 (pre ++ Arg.other t v :: rest) e h =
          (REResult.constructionError
            ("unknown type " ++ t ++ ", value " ++ v ++ " in error call"),
           h2,
           ["errors.E: bad call from " ++ f ++ ":" ++ toString l ++ ": " ++ argsString h2 args0]) := by
  intro pre
  induction pre with
  | nil =>
    intro _ e h
    exact ⟨h, fun rest args0 => rfl⟩
  | cons a pr ih =>
    intro hall e h
    have ha : isOther a = false := hall a (List.mem_cons_self a pr)
    have hp : ∀ x ∈ pr, isOther x = false := fun x hx => hall x (List.mem_cons_of_mem a hx)
    cases a with
    | int n =>
      obtain ⟨h2, hh⟩ := ih hp ⟨n, e.Kind, e.Param, e.Code, e.Err⟩ h
      exact ⟨h2, fun rest args0 => by
        simp only [List.cons_append, reLoop]; exact hh rest args0⟩
    | kind k =>
      obtain ⟨h2, hh⟩ := ih hp ⟨e.HTTPStatusCode, k, e.Param, e.Code, e.Err⟩ h
      exact ⟨h2, fun rest args0 => by
        simp only [List.cons_append, reLoop]; exact hh rest args0⟩
    | str s =>
      obtain ⟨h2, hh⟩ := ih hp ⟨e.HTTPStatusCode, e.Kind, e.Param, s, e.Err⟩ h
      exact ⟨h2, fun rest args0 => by
        simp only [List.cons_append, reLoop]; exact hh rest args0⟩
    | code c =>
      obtain ⟨h2, hh⟩ := ih hp ⟨e.HTTPStatusCode, e.Kind, e.Param, c, e.Err⟩ h
      exact ⟨h2, fun rest args0 => by
        simp only [List.cons_append, reLoop]; exact hh rest args0⟩
    | param p =>
      obtain ⟨h2, hh⟩ := ih hp ⟨e.HTTPStatusCode, e.Kind, p, e.Code, e.Err⟩ h
      exact ⟨h2, fun rest args0 => by
        simp only [List.cons_append, reLoop]; exact hh rest args0⟩
    | err ge =>
      obtain ⟨h2, hh⟩ := ih hp ⟨e.HTTPStatusCode, e.Kind, e.Param, e.Code, some ge⟩ h
      exact ⟨h2, fun rest args0 => by
        simp only [List.cons_append, reLoop]; exact hh rest args0⟩
    | errStar a2 =>
      obtain ⟨h2, hh⟩ := ih hp
        ⟨e.HTTPStatusCode, e.Kind, e.Param, e.Code,
          some (GoErr.errPtr (h.alloc (h.get a2)).2)⟩
        (h.alloc (h.get a2)).1
      exact ⟨h2, fun rest args0 => by
        simp only [List.cons_append, reLoop]; exact hh rest args0⟩
    | other t2 v2 => simp [isOther] at ha

/-- Helper: if the loop returns a built value and either an error-typed
argument occurs in the remaining arguments or the value under construction
already has a non-nil cause, then the returned value has a non-nil cause. -/
theorem reLoop_err_some (f : String) (l : Nat) :
    ∀ (args args0 : List Arg) (e : HTTPErr) (h : Heap)
      (e2 : HTTPErr) (h2 : Heap) (lg : List String),
      ((∃ a ∈ args, isErrArg a = true) ∨ e.Err ≠ none) →
      reLoop f l args0 args e h = (REResult.ok e2, h2, lg) → e2.Err ≠ none := by
  intro args
  induction args with
  | nil =>
    intro args0 e h e2 h2 lg hd heq
    rcases hd with hex | hne
    · obtain ⟨a, hmem, _⟩ := hex
      exact absurd hmem (List.not_mem_nil a)
    · have h1 : REResult.ok e = REResult.ok e2 := congrArg (fun x => x.1) heq
      injection h1 with h1
      rw [← h1]
      exact hne
  | cons a rest ih =>
    intro args0 e h e2 h2 lg hd heq
    cases a with
    | int n =>
      simp only [reLoop] at heq
      refine ih args0 _ h e2 h2 lg ?_ heq
      rcases hd with hex | hne
      · obtain ⟨a0, hmem, hia⟩ := hex
        rcases List.mem_cons.mp hmem with rfl | hmem2
        · simp [isErrArg] at hia
        · exact Or.inl ⟨a0, hmem2, hia⟩
      · exact Or.inr hne
    | kind k =>
      simp only [reLoop] at heq
      refine ih args0 _ h e2 h2 lg ?_ heq
      rcases hd with hex | hne
      · obtain ⟨a0, hmem, hia⟩ := hex
        rcases List.mem_cons.mp hmem with rfl | hmem2
        · simp [isErrArg] at hia
        · exact Or.inl ⟨a0, hmem2, hia⟩
      · exact Or.inr hne
    | str s =>
      simp only [reLoop] at heq
      refine ih args0 _ h e2 h2 lg ?_ heq
      rcases hd with hex | hne
      · obtain ⟨a0, hmem, hia⟩ := hex
        rcases List.mem_cons.mp hmem with rfl | hmem2
        · simp [isErrArg] at hia
        · exact Or.inl ⟨a0, hmem2, hia⟩
      · exact Or.inr hne
    | code c =>
      simp only [reLoop] at heq
      refine ih args0 _ h e2 h2 lg ?_ heq
      rcases hd with hex | hne
      · obtain ⟨a0, hmem, hia⟩ := hex
        rcases List.mem_cons.mp hmem with rfl | hmem2
        · simp [isErrArg] at hia
        · exact Or.inl ⟨a0, hmem2, hia⟩
      · exact Or.inr hne
    | param p =>
      simp only [reLoop] at heq
      refine ih args0 _ h e2 h2 lg ?_ heq
      rcases hd with hex | hne
      · obtain ⟨a0, hmem, hia⟩ := hex
        rcases List.mem_cons.mp hmem with rfl | hmem2
        · simp [isErrArg] at hia
        · exact Or.inl ⟨a0, hmem2, hia⟩
      · exact Or.inr hne
    | err ge =>
      simp only [reLoop] at heq
      refine ih args0 _ h e2 h2 lg (Or.inr ?_) heq
      simp
    | errStar a2 =>
      simp only [reLoop] at heq
      refine ih args0 _ ((h.alloc (h.get a2)).1) e2 h2 lg (Or.inr ?_) heq
      simp
    | other t v =>
      simp [reLoop] at heq

/-- Claim C1, counterexample: on the unclassified error `Str "boom"` the
responder does write status 500, but the body it writes is the marshalled
envelope whose `code` field is also set to "Unanticipated" (source line 113)
and which is pretty-printed; it is not the compact two-field object the
claim states, so the body is not exactly the claimed string. -/
theorem C1_counterexample :
    HTTPError emptyHeap (some (GoErr.str "boom")) =
      RespondResult.wrote (sendError unclassifiedBody 500)
        ["Unknown Error - HTTP 500 - boom"]
    ∧ (sendError unclassifiedBody 500).body ≠
        "\x7b\"error\":\x7b\"kind\":\"Unanticipated\",\"message\":\"Unexpected error - contact support\"\x7d\x7d"
    ∧ ("code", "Unanticipated") ∈ svcFields unclassifiedSvc :=
  ⟨rfl, by decide, by decide⟩

/-- Claim C1 (amended): for every non-classified error whose message is
defined, the responder writes status 500 and the one fixed body
`unclassifiedBody` — the marshalled envelope with kind "Unanticipated",
code "Unanticipated" and message "Unexpected error - contact support" — so
the body is independent of the error and the original error text reaches
only the log line. -/
theorem C1_unclassified_fixed_body (h : Heap) (e : GoErr)
    (hc : isClassified e = false) :
    HTTPError h (some e) =
      RespondResult.wrote (sendError unclassifiedBody 500)
        ["Unknown Error - HTTP 500 - " ++ (goErrMessage h e).getD ""] := by
  cases e with
  | str s => rfl
  | missingField f2 => rfl
  | errorf m => rfl
  | errPtr a => rfl
  | httpErr s k p c cause => simp [isClassified] at hc

/-- Claim C1, witness: the responder maps `MissingField "email"` to the
fixed 500 response; "email is required" appears only in the log. -/
theorem C1_witness :
    HTTPError emptyHeap (some (GoErr.missingField "email")) =
      RespondResult.wrote (sendError unclassifiedBody 500)
        ["Unknown Error - HTTP 500 - "
          ++ (goErrMessage emptyHeap (GoErr.missingField "email")).getD ""] :=
  C1_unclassified_fixed_body emptyHeap (GoErr.missingField "email") rfl

/-- Claim C2, counterexample: a classified error whose status code was never
set (still 0) is written with status 0 — `HTTPError` passes `e.Status()` to
`sendError` unchanged (source line 104) and never maps 0 to 500. -/
theorem C2_counterexample :
    writtenStatus
        (HTTPError emptyHeap
          (some (GoErr.httpErr 0 Kind.other "" "" (some (GoErr.str "x"))))) =
      some 0
    ∧ (0 : Int) ≠ 500 :=
  ⟨rfl, by decide⟩

/-- Claim C2 (amended): for every classified error with a non-nil cause the
responder writes exactly the stored status code — including the zero value
when the status was never set — together with the envelope built from the
error's kind/code/param/message. -/
theorem C2_classified_status_passthrough (h : Heap) (s : Int) (k : Kind)
    (p c : String) (ce : GoErr) (m : String) (hm : goErrMessage h ce = some m) :
    HTTPError h (some (GoErr.httpErr s k p c (some ce))) =
      RespondResult.wrote
        (sendError (marshalIndentErrResponse ⟨kindString k, c, p, m⟩) s)
        ["HTTP " ++ toString s ++ " - " ++ m] := by
  simp [HTTPError, errErrorMethod, hm]

/-- Claim C2, witness: a 404 classified error is written with status 404 and
the envelope populated from its fields. -/
theorem C2_witness :
    HTTPError emptyHeap
        (some (GoErr.httpErr 404 Kind.notFound "" "user_missing"
          (some (GoErr.str "no such user")))) =
      RespondResult.wrote
        (sendError
          (marshalIndentErrResponse
            ⟨kindString Kind.notFound, "user_missing", "", "no such user"⟩)
          404)
        ["HTTP " ++ toString (404 : Int) ++ " - no such user"] :=
  C2_classified_status_passthrough emptyHeap 404 Kind.notFound "" "user_missing"
    (GoErr.str "no such user") "no such user" rfl

/-- Claim C3, counterexample: `RE(404)` returns a classified error value
whose cause field is nil without failing in any way — the builder does not
require an error-typed argument. -/
theorem C3_counterexample :
    RE "caller.go" 10 emptyHeap [Arg.int 404] =
      (REResult.ok ⟨404, Kind.other, "", "", none⟩, emptyHeap, [])
    ∧ HTTPErr.Err ⟨404, Kind.other, "", "", none⟩ = none :=
  ⟨rfl, rfl⟩

/-- Claim C3 (amended): the builder guarantees a non-nil cause only when an
error-typed argument (`*Error` or any other `error`) occurs in the call;
whenever such an argument is present and `RE` returns a built value, that
value's `Err` field is non-nil.  A call without an error-typed argument
returns a value with a nil cause, and the only loud failure is the
zero-argument panic. -/
theorem C3_cause_some_of_err_arg (f : String) (l : Nat) (h : Heap)
    (args : List Arg) (e : HTTPErr) (h2 : Heap) (lg : List String)
    (hok : RE f l h args = (REResult.ok e, h2, lg))
    (ha : ∃ a ∈ args, isErrArg a = true) : e.Err ≠ none := by
  cases args with
  | nil =>
    obtain ⟨a, hmem, _⟩ := ha
    exact absurd hmem (List.not_mem_nil a)
  | cons a0 rest =>
    simp only [RE] at hok
    exact reLoop_err_some f l (a0 :: rest) (a0 :: rest) HTTPErrEmpty h e h2 lg
      (Or.inl ha) hok

/-- Claim C3, witness: a call carrying an error argument yields a value with
non-nil cause. -/
theorem C3_witness :
    HTTPErr.Err ⟨0, Kind.other, "", "", some (GoErr.str "x")⟩ ≠ none :=
  C3_cause_some_of_err_arg "svc.go" 9 emptyHeap [Arg.err (GoErr.str "x")]
    ⟨0, Kind.other, "", "", some (GoErr.str "x")⟩ emptyHeap [] rfl
    ⟨Arg.err (GoErr.str "x"), by simp, rfl⟩

/-- Claim C4: calling `RE` with zero arguments panics with the message
"call to errors.RE with no arguments" and returns no value, for every caller
site and heap. -/
theorem C4_zero_args_panics (f : String) (l : Nat) (h : Heap) :
    RE f l h [] = (REResult.panicked "call to errors.RE with no arguments", h, []) :=
  rfl

/-- Claim C5: a call whose first argument of unrecognized runtime type has
type name `t` and value rendering `v` (after a prefix of recognized
arguments) neither panics nor returns a built value: it returns the
construction error `unknown type t, value v in error call` and emits exactly
one log line carrying the immediate caller's file and line. -/
theorem C5_unknown_type_construction_error (f : String) (l : Nat) (h : Heap)
    (pre rest : List Arg) (t v : String)
    (hpre : ∀ a ∈ pre, isOther a = false) :
    (RE f l h (pre ++ Arg.other t v :: rest)).1 =
      REResult.constructionError
        ("unknown type " ++ t ++ ", value " ++ v ++ " in error call")
    ∧ ∃ s : String, (RE f l h (pre ++ Arg.other t v :: rest)).2.2 =
        ["errors.E: bad call from " ++ f ++ ":" ++ toString l ++ ": " ++ s] := by
  obtain ⟨h2, hh⟩ := reLoop_first_other f l t v pre hpre HTTPErrEmpty h
  have hre : RE f l h (pre ++ Arg.other t v :: rest) =
      reLoop f l (pre ++ Arg.other t v :: rest) (pre ++ Arg.other t v :: rest)
        HTTPErrEmpty h := by
    cases pre <;> rfl
  rw [hre, hh rest (pre ++ Arg.other t v :: rest)]
  exact ⟨rfl, ⟨argsString h2 (pre ++ Arg.other t v :: rest), rfl⟩⟩

/-- Claim C5, witness: `RE(500, <chan int value>)` returns the construction
error naming the offending type and value and logs the caller site. -/
theorem C5_witness :
    (RE "svc.go" 42 emptyHeap
        ([Arg.int 500] ++ Arg.other "chan int" "0xc000010000" :: [])).1 =
      REResult.constructionError
        ("unknown type " ++ "chan int" ++ ", value " ++ "0xc000010000"
          ++ " in error call")
    ∧ ∃ s : String,
        (RE "svc.go" 42 emptyHeap
            ([Arg.int 500] ++ Arg.other "chan int" "0xc000010000" :: [])).2.2 =
          ["errors.E: bad call from " ++ "svc.go" ++ ":" ++ toString (42 : Nat)
            ++ ": " ++ s] :=
  C5_unknown_type_construction_error "svc.go" 42 emptyHeap [Arg.int 500] []
    "chan int" "0xc000010000" (by decide)

/-- Helper: any two of the five canonical arguments commute as field
updates, because each of them targets a different field. -/
theorem applyPure_comm_canon :
    ∀ x ∈ canonArgs, ∀ y ∈ canonArgs, ∀ z : HTTPErr,
      applyPure (applyPure z x) y = applyPure (applyPure z y) x := by
  intro x hx y hy z
  simp only [canonArgs, List.mem_cons, List.not_mem_nil, or_false] at hx hy
  rcases hx with rfl | rfl | rfl | rfl | rfl <;>
    rcases hy with rfl | rfl | rfl | rfl | rfl <;> rfl

/-- Claim C6: every permutation of the five-argument call
`Build(500, KindInvalid, Code("bad_email"), Parameter("email"),
errors.New("x"))` produces exactly the same result as the canonical order —
same built value, same heap, same (empty) log. -/
theorem C6_permutation_invariance (p : List Arg) (hp : List.Perm p canonArgs)
    (f : String) (l : Nat) (h : Heap) :
    RE f l h p = RE f l h canonArgs := by
  have hcpure : ∀ a ∈ canonArgs, isPure a = true := by
    intro a hc
    simp only [canonArgs, List.mem_cons, List.not_mem_nil, or_false] at hc
    rcases hc with rfl | rfl | rfl | rfl | rfl <;> rfl
  have hpure : ∀ a ∈ p, isPure a = true := fun a hmem => hcpure a (hp.subset hmem)
  have hfold : List.foldl applyPure HTTPErrEmpty p
      = List.foldl applyPure HTTPErrEmpty canonArgs :=
    hp.foldl_eq'
      (fun x hx y hy z => applyPure_comm_canon x (hp.subset hx) y (hp.subset hy) z)
      HTTPErrEmpty
  cases p with
  | nil => exact absurd hp.length_eq (by decide)
  | cons a rest =>
    show reLoop f l (a :: rest) (a :: rest) HTTPErrEmpty h = RE f l h canonArgs
    rw [reLoop_pure f l (a :: rest) (a :: rest) HTTPErrEmpty h hpure]
    show _ = reLoop f l canonArgs canonArgs HTTPErrEmpty h
    rw [reLoop_pure f l canonArgs canonArgs HTTPErrEmpty h hcpure, hfold]

/-- Claim C6, witness: the fully reversed order is a permutation of the
canonical order and yields the identical result. -/
theorem C6_witness :
    List.Perm canonArgsRev canonArgs
    ∧ RE "handler.go" 21 emptyHeap canonArgsRev =
        RE "handler.go" 21 emptyHeap canonArgs :=
  ⟨by decide,
   C6_permutation_invariance canonArgsRev (by decide) "handler.go" 21 emptyHeap⟩

/-- Claim C7: when `RE` receives a pointer to an allocated classified `Error`
value, the pointee is copied into a fresh heap cell and the fresh pointer is
embedded as the cause; the copy equals the original, the original cell is
untouched by the call, and overwriting the embedded copy afterwards leaves
the original value unchanged. -/
theorem C7_copy_not_aliased (f : String) (l : Nat) (h : Heap) (a : Nat)
    (ha : a < h.next) :
    RE f l h [Arg.errStar a] =
      (REResult.ok ⟨0, Kind.other, "", "", some (GoErr.errPtr h.next)⟩,
       (h.alloc (h.get a)).1, [])
    ∧ (h.alloc (h.get a)).1.get h.next = h.get a
    ∧ (h.alloc (h.get a)).1.get a = h.get a
    ∧ ∀ v : ErrorVal, ((h.alloc (h.get a)).1.set h.next v).get a = h.get a := by
  have hne : a ≠ h.next := Nat.ne_of_lt ha
  refine ⟨rfl, ?_, ?_, ?_⟩
  · simp [Heap.alloc, Heap.get]
  · simp [Heap.alloc, Heap.get, hne]
  · intro v
    simp [Heap.alloc, Heap.get, Heap.set, hne]

/-- Claim C7, witness: copying the one allocated cell of `heapOne` and then
overwriting the copy leaves the original cell unchanged. -/
theorem C7_witness :
    ((heapOne.alloc (heapOne.get 0)).1.set heapOne.next mutatedVal).get 0 =
      heapOne.get 0 :=
  (C7_copy_not_aliased "repo.go" 33 heapOne 0 (by decide)).2.2.2 mutatedVal

/-- Claim C8, counterexample: a classified error whose cause has the empty
message is serialized to an envelope without a `message` field — all four
fields of `svcError` carry `omitempty` (source lines 66-69), so `message` is
not always present. -/
theorem C8_counterexample :
    HTTPError emptyHeap
        (some (GoErr.httpErr 400 Kind.invalid "" "" (some (GoErr.str "")))) =
      RespondResult.wrote
        (sendError (marshalIndentErrResponse ⟨"Invalid", "", "", ""⟩) 400)
        ["HTTP " ++ toString (400 : Int) ++ " - "]
    ∧ svcFields ⟨"Invalid", "", "", ""⟩ = [("kind", "Invalid")]
    ∧ ∀ kv ∈ svcFields (⟨"Invalid", "", "", ""⟩ : svcError), kv.1 ≠ "message" :=
  ⟨rfl, by decide, by decide⟩

/-- Claim C8 (amended): every field of the serialized envelope — `kind`,
`code`, `param` and `message` alike — is present exactly when its value is
non-empty, the present value being the field's value; `kind` is always
present in responder output because `Kind.String()` is never empty, while
`message` is omitted when the classified cause's message is empty. -/
theorem C8_omitempty_fields :
    (∀ sv : svcError,
      ((∃ x, ("kind", x) ∈ svcFields sv) ↔ sv.Kind ≠ "")
      ∧ ((∃ x, ("code", x) ∈ svcFields sv) ↔ sv.Code ≠ "")
      ∧ ((∃ x, ("param", x) ∈ svcFields sv) ↔ sv.Param ≠ "")
      ∧ ((∃ x, ("message", x) ∈ svcFields sv) ↔ sv.Message ≠ ""))
    ∧ (∀ k : Kind, kindString k ≠ "") := by
  constructor
  · intro sv
    refine ⟨?_, ?_, ?_, ?_⟩ <;>
      · simp only [svcFields, List.mem_append]
        split_ifs <;> simp_all
  · intro k
    cases k <;> simp [kindString]

/-- Claim C9: `HTTPErr.Error()` dereferences its `Err` field with no nil
check, so its message is undefined (a panic) exactly on a nil cause; the
builder produces such a value from any call without an error-typed argument,
for example `RE(404)`, and the responder's classified path panics on it. -/
theorem C9_nil_cause_unsafe :
    (∀ (h : Heap) (s : Int) (k : Kind) (p c : String),
      goErrMessage h (GoErr.httpErr s k p c none) = none)
    ∧ (∀ (f : String) (l : Nat) (h : Heap),
        RE f l h [Arg.int 404] =
          (REResult.ok ⟨404, Kind.other, "", "", none⟩, h, []))
    ∧ (∀ h : Heap,
        HTTPError h (some (GoErr.httpErr 404 Kind.other "" "" none)) =
          RespondResult.panicked nilDerefMsg) :=
  ⟨fun _ _ _ _ _ => rfl, fun _ _ _ => rfl, fun _ => rfl⟩

/-- Claim C10: the builder returns on the first argument of unrecognized
type without processing the rest of the argument list — the returned value
and the final heap are identical whether or not any further arguments follow
the offending one, whatever their types. -/
theorem C10_early_return (f : String) (l : Nat) (h : Heap)
    (pre rest : List Arg) (t v : String)
    (hpre : ∀ a ∈ pre, isOther a = false) :
    (RE f l h (pre ++ Arg.other t v :: rest)).1 =
      (RE f l h (pre ++ [Arg.other t v])).1
    ∧ (RE f l h (pre ++ Arg.other t v :: rest)).2.1 =
        (RE f l h (pre ++ [Arg.other t v])).2.1 := by
  obtain ⟨h2, hh⟩ := reLoop_first_other f l t v pre hpre HTTPErrEmpty h
  have hre1 : RE f l h (pre ++ Arg.other t v :: rest) =
      reLoop f l (pre ++ Arg.other t v :: rest) (pre ++ Arg.other t v :: rest)
        HTTPErrEmpty h := by
    cases pre <;> rfl
  have hre2 : RE f l h (pre ++ [Arg.other t v]) =
      reLoop f l (pre ++ [Arg.other t v]) (pre ++ [Arg.other t v])
        HTTPErrEmpty h := by
    cases pre <;> rfl
  rw [hre1, hre2, hh rest (pre ++ Arg.other t v :: rest),
    hh [] (pre ++ [Arg.other t v])]
  exact ⟨rfl, rfl⟩

/-- Claim C10, witness: with a `Kind` argument after the offending one, the
returned value and heap equal those of the call truncated at the offending
argument. -/
theorem C10_witness :
    (RE "svc.go" 7 emptyHeap
        ([Arg.int 500] ++ Arg.other "chan int" "0xc000010000" :: [Arg.kind Kind.invalid])).1 =
      (RE "svc.go" 7 emptyHeap
        ([Arg.int 500] ++ [Arg.other "chan int" "0xc000010000"])).1
    ∧ (RE "svc.go" 7 emptyHeap
        ([Arg.int 500] ++ Arg.other "chan int" "0xc000010000" :: [Arg.kind Kind.invalid])).2.1 =
      (RE "svc.go" 7 emptyHeap
        ([Arg.int 500] ++ [Arg.other "chan int" "0xc000010000"])).2.1 :=
  C10_early_return "svc.go" 7 emptyHeap [Arg.int 500] [Arg.kind Kind.invalid]
    "chan int" "0xc000010000" (by decide)

end GilcrestErrors
